import Mathlib

/-!
# CarryGreen dashboard — CSV ingestion, validation and aggregation pipeline

A shallow embedding of the CSV pipeline of the CarryGreen inverter dashboard:

* `validation.ts` — field validators (`validateNumber` and its specialized
  wrappers, `validateDate`, `validateTime`, `validateBlackout`, `validateHex`);
* the CSV parser module — `CSV_PARSE_CONFIG.transformHeader`, `createTimestamp`,
  `parseRow`, `parseCSV`, `formatParseErrors`;
* `transformations.ts` — `aggregateData`, `groupByTimeInterval`,
  `extractFieldValues`, `calculateAggregation`.

Modelling conventions:

* JS numbers are modelled by `ℚ`. The fields flowing through the pipeline are
  produced by `Number(string)` on telemetry text, so `NaN`/`Infinity` never
  reach the aggregation layer; `ℚ` has no `NaN`, and the JS `!isNaN` filter is
  the identity in this model.
* JS objects keyed by strings are association lists in insertion order, with
  JS assignment semantics (`upsert`: update in place when the key exists,
  append otherwise), matching the string-key insertion-order iteration of
  `Object.entries`.
* A raw CSV row (Papa Parse output with `header: true`) is an association list
  of header name to cell string; a missing key reads as `""`, which coincides
  with JS `row.K || ''` because both `undefined` and `''` are falsy.
* `Number(value)` is modelled by `jsNumber`, covering the decimal-literal
  fragment of the JS numeric grammar (sign, digits, fraction, exponent,
  surrounding whitespace); hex/binary/`Infinity` literals are out of the
  telemetry grammar and parse to `none` here.
* `new Date(...)`/`toISOString` are modelled with the environment timezone
  fixed to UTC; no claim below depends on the rendered instant text.
-/

namespace CarryGreen

/-- JS string truthiness fallback: `a || b` on strings (both `undefined` and
`''` are falsy; missing keys are represented by `""`). -/
def jsOr (a b : String) : String :=
  if a = "" then b else a

/-- Drop leading and trailing whitespace from a character list. -/
def trimChars (cs : List Char) : List Char :=
  ((cs.dropWhile Char.isWhitespace).reverse.dropWhile Char.isWhitespace).reverse

/-- Model of JS `String.prototype.trim()` (whitespace on telemetry text is
ASCII: space, tab, CR, LF). -/
def jsTrim (s : String) : String :=
  String.mk (trimChars s.toList)

/-- Split a character list at every occurrence of a separator character;
`[]` yields one empty group, as in JS `''.split(sep) == ['']`. -/
def splitChars (sep : Char) : List Char → List (List Char)
  | [] => [[]]
  | c :: rest =>
    match splitChars sep rest with
    | [] => [[c]]
    | g :: gs => if c = sep then [] :: g :: gs else (c :: g) :: gs

/-- Model of JS `s.split(sep)` for a one-character separator. -/
def jsSplit (s : String) (sep : Char) : List String :=
  (splitChars sep s.toList).map String.mk

/-- ASCII lower-casing of one character. -/
def asciiLower (c : Char) : Char :=
  if 'A' ≤ c ∧ c ≤ 'Z' then Char.ofNat (c.toNat + 32) else c

/-- Model of JS `s.toLowerCase()` on ASCII text. -/
def jsToLower (s : String) : String :=
  String.mk (s.toList.map asciiLower)

/-- ASCII upper-casing of one character. -/
def asciiUpper (c : Char) : Char :=
  if 'a' ≤ c ∧ c ≤ 'z' then Char.ofNat (c.toNat - 32) else c

/-- Model of JS `s.toUpperCase()` on ASCII text. -/
def jsToUpper (s : String) : String :=
  String.mk (s.toList.map asciiUpper)

/-- Error taxonomy of `ParseError.type`. -/
inductive ErrorType where
  | validation
  | conversion
  | missing
  | format
deriving DecidableEq, Repr

/-- The string literal the TS union type stores for each error kind. -/
def ErrorType.key : ErrorType → String
  | .validation => "validation"
  | .conversion => "conversion"
  | .missing => "missing"
  | .format => "format"

/-- `ParseError` from `@/types`: row (1-based line, header excluded), field
name, original raw value, human message, error kind. -/
structure ParseError where
  row : Nat
  field : String
  value : String
  message : String
  type : ErrorType
deriving DecidableEq, Repr

/-- Result shape of the numeric validators: coerced value plus optional error. -/
structure NumResult where
  value : ℚ
  error : Option ParseError
deriving DecidableEq, Repr

/-- Result shape of the string-valued validators (date, time, hex). -/
structure StrResult where
  value : String
  error : Option ParseError
deriving DecidableEq, Repr

/-- Result shape of `validateBlackout` (JS `boolean | null`). -/
structure BlackoutResult where
  value : Option Bool
  error : Option ParseError
deriving DecidableEq, Repr

/-! ## Model of `Number(string)` (decimal-literal fragment) -/

/-- Numeric value of a list of decimal digit characters. -/
def digitsVal (cs : List Char) : Nat :=
  cs.foldl (fun acc c => 10 * acc + (c.toNat - '0'.toNat)) 0

/-- `10 ^ n` in `ℚ`. -/
def pow10 (n : Nat) : ℚ := (10 : ℚ) ^ n

/-- Exponent suffix of a JS decimal literal: given the remaining characters and
the mantissa, finish the parse. Empty remainder accepts the mantissa. -/
def parseExpPart (cs : List Char) (mant : ℚ) : Option ℚ :=
  match cs with
  | [] => some mant
  | e :: rest =>
    if e = 'e' ∨ e = 'E' then
      let (sgn, ds) :=
        match rest with
        | '+' :: r => (true, r)
        | '-' :: r => (false, r)
        | r => (true, r)
      if ds ≠ [] ∧ ds.all Char.isDigit then
        some (if sgn then mant * pow10 (digitsVal ds) else mant / pow10 (digitsVal ds))
      else none
    else none

/-- Unsigned JS decimal literal: digits, optional fraction, optional exponent.
At least one digit must appear in the integer or fractional part. -/
def parseMagnitude (cs : List Char) : Option ℚ :=
  let intDs := cs.takeWhile Char.isDigit
  let rest := cs.dropWhile Char.isDigit
  match rest with
  | '.' :: rest2 =>
    let fracDs := rest2.takeWhile Char.isDigit
    let rest3 := rest2.dropWhile Char.isDigit
    if intDs = [] ∧ fracDs = [] then none
    else parseExpPart rest3 ((digitsVal intDs : ℚ) + (digitsVal fracDs : ℚ) / pow10 fracDs.length)
  | _ =>
    if intDs = [] then none
    else parseExpPart rest (digitsVal intDs : ℚ)

/-- Model of JS `Number(value)` on the decimal-literal grammar. `none` stands
for `NaN`. Whitespace-only input is `0`, as in JS. -/
def jsNumber (s : String) : Option ℚ :=
  let t := jsTrim s
  if t = "" then some 0
  else
    match t.toList with
    | '+' :: rest => parseMagnitude rest
    | '-' :: rest => (parseMagnitude rest).map Neg.neg
    | cs => parseMagnitude cs

/-- Model of JS number-to-string rendering as used inside error messages
(exact rendering is not load-bearing for any claim; integers render as their
digit string as in JS). -/
def numToString (q : ℚ) : String :=
  if q.den = 1 then toString q.num else toString q.num ++ "/" ++ toString q.den

/-! ## Field validators (`validation.ts`) -/

/-- `validateNumber(value, fieldName, min, max, rowIndex)` from `validation.ts`:
empty or `"-"` reads as 0 with no error; non-numeric text yields 0 with a
`conversion` error; an out-of-range number is returned as-is with a
`validation` error; an in-range number is returned with no error. -/
def validateNumber (value fieldName : String) (min max : ℚ) (rowIndex : Nat) :
    NumResult :=
  if value = "" ∨ value = "-" then
    ⟨0, none⟩
  else
    match jsNumber value with
    | none =>
      ⟨0, some ⟨rowIndex, fieldName, value,
        "Invalid number format: \x22" ++ value ++ "\x22", .conversion⟩⟩
    | some numValue =>
      if numValue < min ∨ numValue > max then
        ⟨numValue, some ⟨rowIndex, fieldName, value,
          "Value " ++ numToString numValue ++ " is outside valid range [" ++
            numToString min ++ ", " ++ numToString max ++ "]", .validation⟩⟩
      else
        ⟨numValue, none⟩

/-- `ValidationRules` ranges from `validation.ts`. -/
def validateVoltage (value fieldName : String) (rowIndex : Nat) : NumResult :=
  validateNumber value fieldName 0 300 rowIndex

def validateCurrent (value fieldName : String) (rowIndex : Nat) : NumResult :=
  validateNumber value fieldName (-100) 100 rowIndex

def validatePower (value fieldName : String) (rowIndex : Nat) : NumResult :=
  validateNumber value fieldName 0 10000 rowIndex

def validateEnergy (value fieldName : String) (rowIndex : Nat) : NumResult :=
  validateNumber value fieldName 0 100000 rowIndex

def validateTemperature (value fieldName : String) (rowIndex : Nat) : NumResult :=
  validateNumber value fieldName (-40) 80 rowIndex

def validateSOC (value fieldName : String) (rowIndex : Nat) : NumResult :=
  validateNumber value fieldName 0 100 rowIndex

def validateFrequency (value fieldName : String) (rowIndex : Nat) : NumResult :=
  validateNumber value fieldName 45 65 rowIndex

/-- Shape test for the regex `^\d{4}-\d{2}-\d{2}$`. -/
def dateShapeOK (s : String) : Bool :=
  match s.toList with
  | [y1, y2, y3, y4, d1, m1, m2, d2, dd1, dd2] =>
    y1.isDigit && y2.isDigit && y3.isDigit && y4.isDigit &&
    d1 = '-' && m1.isDigit && m2.isDigit && d2 = '-' && dd1.isDigit && dd2.isDigit
  | _ => false

/-- Gregorian leap-year test, as used by JS `Date` for ISO date strings. -/
def isLeapYear (y : Nat) : Bool :=
  (y % 4 = 0 && y % 100 ≠ 0) || y % 400 = 0

/-- Days in a month of a given year. -/
def daysInMonth (y m : Nat) : Nat :=
  if m = 2 then (if isLeapYear y then 29 else 28)
  else if m = 4 ∨ m = 6 ∨ m = 9 ∨ m = 11 then 30
  else 31

/-- Model of `!isNaN(new Date(value).getTime())` for a `YYYY-MM-DD` string:
the ISO date parser accepts exactly the real calendar dates. -/
def jsDateParses (s : String) : Bool :=
  match s.toList with
  | [y1, y2, y3, y4, _, m1, m2, _, d1, d2] =>
    let y := digitsVal [y1, y2, y3, y4]
    let m := digitsVal [m1, m2]
    let d := digitsVal [d1, d2]
    1 ≤ m && m ≤ 12 && 1 ≤ d && d ≤ daysInMonth y m
  | _ => false

/-- `validateDate` from `validation.ts`: required (`missing` when empty),
`format` when the 4-2-2 shape fails, `validation` when the shape holds but the
string is not a real date; the returned value is the raw string in every
non-empty branch. -/
def validateDate (value fieldName : String) (rowIndex : Nat) : StrResult :=
  if value = "" then
    ⟨"", some ⟨rowIndex, fieldName, value, "Date is required", .missing⟩⟩
  else if ¬ dateShapeOK value then
    ⟨value, some ⟨rowIndex, fieldName, value,
      "Date must be in YYYY-MM-DD format", .format⟩⟩
  else if ¬ jsDateParses value then
    ⟨value, some ⟨rowIndex, fieldName, value, "Invalid date", .validation⟩⟩
  else
    ⟨value, none⟩

/-- Shape test for the regex `^([01]?[0-9]|2[0-3]):[0-5][0-9]$`. -/
def timeShapeOK (s : String) : Bool :=
  match s.toList with
  | [h, c, m1, m2] =>
    h.isDigit && c = ':' && ('0' ≤ m1 && m1 ≤ '5') && m2.isDigit
  | [h1, h2, c, m1, m2] =>
    ((h1 = '0' ∨ h1 = '1') && h2.isDigit || h1 = '2' && ('0' ≤ h2 && h2 ≤ '3')) &&
    c = ':' && ('0' ≤ m1 && m1 ≤ '5') && m2.isDigit
  | _ => false

/-- `validateTime` from `validation.ts`: required (`missing` when empty),
`format` when the `H(H)?:MM` shape fails; raw string returned otherwise. -/
def validateTime (value fieldName : String) (rowIndex : Nat) : StrResult :=
  if value = "" then
    ⟨"", some ⟨rowIndex, fieldName, value, "Time is required", .missing⟩⟩
  else if ¬ timeShapeOK value then
    ⟨value, some ⟨rowIndex, fieldName, value,
      "Time must be in HH:MM format", .format⟩⟩
  else
    ⟨value, none⟩

/-- `validateBlackout` from `validation.ts`: empty and `"-"` are the unknown
tri-state with no error; case-insensitive true/1/yes and false/0/no map to the
two booleans; anything else is unknown with a `validation` error. -/
def validateBlackout (value fieldName : String) (rowIndex : Nat) :
    BlackoutResult :=
  if value = "" ∨ value = "-" then
    ⟨none, none⟩
  else
    let lower := jsToLower value
    if lower = "true" ∨ lower = "1" ∨ lower = "yes" then ⟨some true, none⟩
    else if lower = "false" ∨ lower = "0" ∨ lower = "no" then ⟨some false, none⟩
    else
      ⟨none, some ⟨rowIndex, fieldName, value,
        "Invalid blackout status: \x22" ++ value ++ "\x22", .validation⟩⟩

/-- Shape test for the regex `^0x[0-9A-Fa-f]+$`. -/
def hexShapeOK (s : String) : Bool :=
  match s.toList with
  | '0' :: 'x' :: rest => rest ≠ [] && rest.all (fun c =>
      c.isDigit || ('A' ≤ c && c ≤ 'F') || ('a' ≤ c && c ≤ 'f'))
  | _ => false

/-- `validateHex` from `validation.ts`: empty defaults to `"0x00"` with no
error; a non-matching non-empty string is returned unchanged together with a
`format` error. -/
def validateHex (value fieldName : String) (rowIndex : Nat) : StrResult :=
  if value = "" then
    ⟨"0x00", none⟩
  else if ¬ hexShapeOK value then
    ⟨value, some ⟨rowIndex, fieldName, value,
      "Invalid hex format: \x22" ++ value ++ "\x22", .format⟩⟩
  else
    ⟨value, none⟩

/-! ## Data model (`@/types`) -/

/-- `Timestamp`: date and time strings plus the derived combined instant. -/
structure Timestamp where
  date : String
  time : String
  datetime : Option String
deriving DecidableEq, Repr

/-- `UserRecord`: device id, name, timestamp, tri-state blackout. -/
structure UserRecord where
  id : String
  name : String
  timestamp : Timestamp
  blackout : Option Bool
deriving DecidableEq, Repr

structure InverterSupply where
  totalKWh : ℚ
deriving DecidableEq, Repr

structure PVData where
  voltage : ℚ
  current : ℚ
  powerW : ℚ
  dailyWh : ℚ
  monthlyWd : ℚ
  yearlyWm : ℚ
  totalKWh : ℚ
deriving DecidableEq, Repr

structure BatteryData where
  voltage : ℚ
  current : ℚ
  temperature : ℚ
  soc : ℚ
deriving DecidableEq, Repr

structure InverterData where
  voltage : ℚ
  current : ℚ
  frequency : ℚ
deriving DecidableEq, Repr

structure GridData where
  voltage : ℚ
  current : ℚ
  frequency : ℚ
deriving DecidableEq, Repr

structure SystemStatus where
  hex : String
deriving DecidableEq, Repr

/-- `InverterRecord`: one fully parsed telemetry row. -/
structure InverterRecord where
  userRecord : UserRecord
  inverterSupply : InverterSupply
  pv : PVData
  battery : BatteryData
  inverter : InverterData
  grid : GridData
  status : SystemStatus
deriving DecidableEq, Repr

/-- A raw header-keyed CSV row as produced by Papa Parse with `header: true`:
an association list of column name to cell text. -/
def RawRow : Type := List (String × String)

/-- Reading a key from a row. A missing key is `""`: in the source every read
is guarded by `|| ''`, and both `undefined` and `''` are falsy, so the default
is observationally identical. -/
def RawRow.get (row : RawRow) (key : String) : String :=
  match row.find? (fun p => p.1 = key) with
  | some p => p.2
  | none => ""

/-- `ParseResult` from `@/types`. -/
structure ParseResult where
  data : List InverterRecord
  errors : List ParseError
  totalRows : Nat
  successfulRows : Nat
deriving DecidableEq, Repr

/-! ## Parse Orchestrator and Row Assembler (the CSV parser module) -/

/-- `CSV_PARSE_CONFIG.transformHeader`. The source's `switch` contains two
`case 'Total kWh':` labels (`InvSupply_TotalKWh` first, `PV_TotalKWh` later);
a JS `switch` takes the first matching case, so the later branch is
unreachable and `'Total kWh'` always maps to `InvSupply_TotalKWh`. -/
def transformHeader (header : String) : String :=
  let cleanHeader := jsTrim header
  if cleanHeader = "Total kWh" then "InvSupply_TotalKWh"
  else if cleanHeader = "Voltage" then "PV_Voltage"
  else if cleanHeader = "Current" then "PV_Current"
  else if cleanHeader = "Power W" then "PV_PowerW"
  else if cleanHeader = "Daily Wh" then "PV_DailyWh"
  else if cleanHeader = "Monthly Wd" then "PV_MonthlyWd"
  else if cleanHeader = "Yearly Wm" then "PV_YearlyWm"
  else cleanHeader

/-- Pad a validated `H:MM` time to `HH:MM`. -/
def padHour (t : String) : String :=
  if t.length = 4 then "0" ++ t else t

/-- Model of `new Date(date + 'T' + time + ':00').toISOString()` on inputs
that already passed `validateDate`/`validateTime`, with the environment
timezone fixed to UTC. The JS `catch` branch corresponds to `none`; it is
unreachable for validated inputs, as in the source. -/
def jsToISOString (date time : String) : Option String :=
  some (date ++ "T" ++ padHour time ++ ":00.000Z")

/-- `createTimestamp(date, time, rowIndex)`: validate both parts, combine into
an instant only when both validations produced no error. -/
def createTimestamp (date time : String) (rowIndex : Nat) :
    Timestamp × List ParseError :=
  let dateV := validateDate date "Date" rowIndex
  let timeV := validateTime time "Time" rowIndex
  let errs := dateV.error.toList ++ timeV.error.toList
  if dateV.error = none ∧ timeV.error = none then
    match jsToISOString dateV.value timeV.value with
    | some dt => (⟨dateV.value, timeV.value, some dt⟩, errs)
    | none =>
      (⟨dateV.value, timeV.value, none⟩,
       errs ++ [⟨rowIndex, "datetime", date ++ " " ++ time,
         "Failed to create valid datetime", .conversion⟩])
  else
    (⟨dateV.value, timeV.value, none⟩, errs)

/-- Result of the Row Assembler for one row. -/
structure RowParse where
  record : Option InverterRecord
  errors : List ParseError
deriving DecidableEq, Repr

/-- `parseRow(row, rowIndex)`: run every field through its validator in source
order, collect all errors, and build the record unless both the device id and
the resolved date are empty, in which case one synthetic `validation` error on
field `record` is appended and no record is produced. -/
def parseRow (row : RawRow) (rowIndex : Nat) : RowParse :=
  let ts := createTimestamp (row.get "Date") (row.get "Time") rowIndex
  let blackoutV := validateBlackout (row.get "Blackout") "Blackout" rowIndex
  let userRecord : UserRecord :=
    ⟨row.get "ID", row.get "Name", ts.1, blackoutV.value⟩
  let invSupplyV := validateEnergy
    (jsOr (row.get "InvSupply_TotalKWh") (row.get "Total kWh"))
    "InvSupply_TotalKWh" rowIndex
  let pvVoltageV := validateVoltage
    (jsOr (row.get "PV_Voltage") (row.get "Voltage")) "PV_Voltage" rowIndex
  let pvCurrentV := validateCurrent
    (jsOr (row.get "PV_Current") (row.get "Current")) "PV_Current" rowIndex
  let pvPowerV := validatePower
    (jsOr (row.get "PV_PowerW") (row.get "Power W")) "PV_PowerW" rowIndex
  let pvDailyWhV := validateEnergy
    (jsOr (row.get "PV_DailyWh") (row.get "Daily Wh")) "PV_DailyWh" rowIndex
  let pvMonthlyWdV := validateEnergy
    (jsOr (row.get "PV_MonthlyWd") (row.get "Monthly Wd")) "PV_MonthlyWd" rowIndex
  let pvYearlyWmV := validateEnergy
    (jsOr (row.get "PV_YearlyWm") (row.get "Yearly Wm")) "PV_YearlyWm" rowIndex
  let pvTotalKWhV := validateEnergy
    (jsOr (row.get "PV_TotalKWh") (row.get "Total kWh")) "PV_TotalKWh" rowIndex
  let batteryVoltageV := validateVoltage (row.get "Voltage_1") "Battery_Voltage" rowIndex
  let batteryCurrentV := validateCurrent (row.get "Current_1") "Battery_Current" rowIndex
  let batteryTempV := validateTemperature (row.get "Temp") "Battery_Temp" rowIndex
  let batterySOCV := validateSOC (row.get "SOC") "Battery_SOC" rowIndex
  let inverterVoltageV := validateVoltage (row.get "Voltage_2") "Inverter_Voltage" rowIndex
  let inverterCurrentV := validateCurrent (row.get "Current_2") "Inverter_Current" rowIndex
  let inverterFreqV := validateFrequency (row.get "Hz") "Inverter_Frequency" rowIndex
  let gridVoltageV := validateVoltage (row.get "Voltage_3") "Grid_Voltage" rowIndex
  let gridCurrentV := validateCurrent (row.get "Current_3") "Grid_Current" rowIndex
  let gridFreqV := validateFrequency (row.get "Hz_1") "Grid_Frequency" rowIndex
  let hexV := validateHex (row.get "Hex") "Status_Hex" rowIndex
  let errors : List ParseError :=
    ts.2 ++ blackoutV.error.toList ++ invSupplyV.error.toList ++
    pvVoltageV.error.toList ++ pvCurrentV.error.toList ++
    pvPowerV.error.toList ++ pvDailyWhV.error.toList ++
    pvMonthlyWdV.error.toList ++ pvYearlyWmV.error.toList ++
    pvTotalKWhV.error.toList ++
    batteryVoltageV.error.toList ++ batteryCurrentV.error.toList ++
    batteryTempV.error.toList ++ batterySOCV.error.toList ++
    inverterVoltageV.error.toList ++ inverterCurrentV.error.toList ++
    inverterFreqV.error.toList ++
    gridVoltageV.error.toList ++ gridCurrentV.error.toList ++
    gridFreqV.error.toList ++
    hexV.error.toList
  if userRecord.id = "" ∧ ts.1.date = "" then
    ⟨none, errors ++ [⟨rowIndex, "record", "incomplete",
      "Row missing required ID or date information", .validation⟩]⟩
  else
    ⟨some ⟨userRecord, ⟨invSupplyV.value⟩,
      ⟨pvVoltageV.value, pvCurrentV.value, pvPowerV.value, pvDailyWhV.value,
       pvMonthlyWdV.value, pvYearlyWmV.value, pvTotalKWhV.value⟩,
      ⟨batteryVoltageV.value, batteryCurrentV.value, batteryTempV.value,
       batterySOCV.value⟩,
      ⟨inverterVoltageV.value, inverterCurrentV.value, inverterFreqV.value⟩,
      ⟨gridVoltageV.value, gridCurrentV.value, gridFreqV.value⟩,
      ⟨hexV.value⟩⟩, errors⟩

/-- A low-level tokenizer error (Papa Parse `ParseError` shape): best-effort
0-based data row index and a message. -/
structure PapaErr where
  row : Option Nat
  message : String
deriving DecidableEq, Repr

/-- Strip a trailing `\r` (CRLF input). -/
def stripCR (line : String) : String :=
  match line.toList.getLast? with
  | some c => if c = '\x0d' then String.mk line.toList.dropLast else line
  | none => line

/-- Model of the Papa Parse tokenization under `CSV_PARSE_CONFIG` (`header`,
`skipEmptyLines`, `trimHeaders`, `transformHeader`, no dynamic typing) on the
unquoted fragment of CSV: split into lines, skip fully empty lines, read the
first line as trimmed+transformed header names, key every later line's cells
by them, and report a field-count mismatch per malformed row. -/
def tokenizeCSV (content : String) : List RawRow × List PapaErr :=
  let lines := ((jsSplit content '\x0a').map stripCR).filter (fun l => l ≠ "")
  match lines with
  | [] => ([], [])
  | headerLine :: dataLines =>
    let headers := (jsSplit headerLine ',').map (fun h => transformHeader (jsTrim h))
    let rows := dataLines.map (fun l => (headers.zip (jsSplit l ',') : RawRow))
    let errs := (dataLines.enum).filterMap (fun p =>
      if (jsSplit p.2 ',').length = headers.length then none
      else some (⟨some p.1,
        if (jsSplit p.2 ',').length < headers.length then
          "Too few fields"
        else
          "Too many fields"⟩ : PapaErr))
    (rows, errs)

/-- Row number assigned by `parseCSV`'s `complete` callback to the Papa error
at 0-based data row `n`: `error.row ? error.row + 1 : 0` (note `0` is falsy). -/
def papaErrRow (r : Option Nat) : Nat :=
  match r with
  | some n => if n = 0 then 0 else n + 1
  | none => 0

/-- `parseCSV(csvContent)`: drive `parseRow` over every tokenized data row
(row number = index + 2), collect records and errors, then append the
tokenizer's own errors as synthetic `format` errors on field `parsing`. -/
def parseCSV (content : String) : ParseResult :=
  let tk := tokenizeCSV content
  let parsed := tk.1.enum.map (fun p => parseRow p.2 (p.1 + 2))
  let records := parsed.filterMap (fun r => r.record)
  let allErrors := (parsed.map (fun r => r.errors)).flatten ++
    tk.2.map (fun e =>
      (⟨papaErrRow e.row, "parsing", "", e.message, .format⟩ : ParseError))
  ⟨records, allErrors, tk.1.length, records.length⟩

/-- JS object upsert keyed by strings, `acc[k].push(x)` flavour: append `x` to
the existing key's list, or append a new key at the end (string-key insertion
order). -/
def upsertAppend {α : Type} (acc : List (String × List α)) (key : String)
    (x : α) : List (String × List α) :=
  match acc with
  | [] => [(key, [x])]
  | (k, xs) :: rest =>
    if k = key then (k, xs ++ [x]) :: rest else (k, xs) :: upsertAppend rest key x

/-- The `errors.reduce` grouping of `formatParseErrors`: group errors by the
string key of their type, preserving insertion order. -/
def groupByType (errors : List ParseError) : List (String × List ParseError) :=
  errors.foldl (fun acc e => upsertAppend acc e.type.key e) []

/-- The per-type section of the formatted output: header line, up to five
example lines, and the overflow suffix. -/
def typeSection (ty : String) (tes : List ParseError) : String :=
  "\x0a" ++ jsToUpper ty ++ " errors (" ++ toString tes.length ++ "):\x0a" ++
  (tes.take 5).foldl (fun m e =>
    m ++ "  Row " ++ toString e.row ++ ", " ++ e.field ++ ": " ++ e.message ++
      "\x0a") "" ++
  (if tes.length > 5 then
    "  ... and " ++ toString (tes.length - 5) ++ " more\x0a"
  else "")

/-- `formatParseErrors(errors)`: `"No errors"` on the empty list, otherwise a
total-count header followed by one section per error type. -/
def formatParseErrors (errors : List ParseError) : String :=
  if errors.length = 0 then "No errors"
  else
    (groupByType errors).foldl (fun msg p => msg ++ typeSection p.1 p.2)
      ("Found " ++ toString errors.length ++ " error(s):\x0a")

/-! ## Aggregation Engine (`transformations.ts`) -/

inductive Interval where
  | minute
  | hour
  | day
  | month
deriving DecidableEq, Repr

inductive Method where
  | average
  | sum
  | min
  | max
deriving DecidableEq, Repr

/-- `AggregationOptions` from `@/types`. -/
structure AggregationOptions where
  interval : Interval
  fields : Option (List String)
  method : Method
deriving DecidableEq, Repr

/-- `AggregatedData` from `@/types`: bucket key, field-name-keyed reduced
values (a string-keyed JS object, modelled in insertion order), record count. -/
structure AggregatedData where
  period : String
  values : List (String × ℚ)
  count : Nat
deriving DecidableEq, Repr

/-- A JS runtime value, as far as `extractFieldValues`'s dynamic walk can
observe one: number, string, boolean, `null`, `undefined`, or an object. -/
inductive JVal where
  | num (q : ℚ)
  | str (s : String)
  | bool (b : Bool)
  | null
  | undef
  | obj (fields : List (String × JVal))

/-- The JS object view of an `InverterRecord`, keys in declaration order. An
absent `datetime` is the `undefined` property of the object literal. -/
def recordToJVal (r : InverterRecord) : JVal :=
  .obj [
    ("userRecord", .obj [
      ("id", .str r.userRecord.id),
      ("name", .str r.userRecord.name),
      ("timestamp", .obj [
        ("date", .str r.userRecord.timestamp.date),
        ("time", .str r.userRecord.timestamp.time),
        ("datetime", match r.userRecord.timestamp.datetime with
          | some dt => .str dt
          | none => .undef)]),
      ("blackout", match r.userRecord.blackout with
        | some b => .bool b
        | none => .null)]),
    ("inverterSupply", .obj [("totalKWh", .num r.inverterSupply.totalKWh)]),
    ("pv", .obj [
      ("voltage", .num r.pv.voltage),
      ("current", .num r.pv.current),
      ("powerW", .num r.pv.powerW),
      ("dailyWh", .num r.pv.dailyWh),
      ("monthlyWd", .num r.pv.monthlyWd),
      ("yearlyWm", .num r.pv.yearlyWm),
      ("totalKWh", .num r.pv.totalKWh)]),
    ("battery", .obj [
      ("voltage", .num r.battery.voltage),
      ("current", .num r.battery.current),
      ("temperature", .num r.battery.temperature),
      ("soc", .num r.battery.soc)]),
    ("inverter", .obj [
      ("voltage", .num r.inverter.voltage),
      ("current", .num r.inverter.current),
      ("frequency", .num r.inverter.frequency)]),
    ("grid", .obj [
      ("voltage", .num r.grid.voltage),
      ("current", .num r.grid.current),
      ("frequency", .num r.grid.frequency)]),
    ("status", .obj [("hex", .str r.status.hex)])]

/-- The backward-compatibility branch of `extractFieldValues`'s loop: when a
path component does not resolve, `powerW`/`voltage`/`soc` fall back to
`pv.powerW`/`battery.voltage`/`battery.soc`, anything else to 0. -/
def extractCompat (record : InverterRecord) (fieldPath : String) : ℚ :=
  if fieldPath = "powerW" then record.pv.powerW
  else if fieldPath = "voltage" then record.battery.voltage
  else if fieldPath = "soc" then record.battery.soc
  else 0

/-- The `for (const part of parts)` walk of `extractFieldValues`: descend into
object properties while they exist; on the first failure take the
backward-compatibility value and stop; at the end a number is kept and
anything else reads as 0. -/
def extractGo (record : InverterRecord) (fieldPath : String) :
    List String → JVal → ℚ
  | [], v =>
    match v with
    | .num q => q
    | _ => 0
  | part :: rest, v =>
    match v with
    | .obj fs =>
      match fs.find? (fun p => p.1 = part) with
      | some p => extractGo record fieldPath rest p.2
      | none => extractCompat record fieldPath
    | _ => extractCompat record fieldPath

/-- Value of one record at a dotted field path, per `extractFieldValues`. -/
def extractFieldValue (record : InverterRecord) (fieldPath : String) : ℚ :=
  extractGo record fieldPath (jsSplit fieldPath '.') (recordToJVal record)

/-- `extractFieldValues(records, fieldPath)`. The source's trailing
`.filter(val => !isNaN(val))` is the identity here: every extracted value is
a `ℚ` and `ℚ` has no `NaN`. -/
def extractFieldValues (records : List InverterRecord) (fieldPath : String) :
    List ℚ :=
  records.map (fun r => extractFieldValue r fieldPath)

/-- `calculateAggregation(values, method)`: 0 on the empty list, else the
arithmetic total, mean, minimum (`Math.min(...values)`) or maximum. -/
def calculateAggregation (values : List ℚ) (method : Method) : ℚ :=
  match values with
  | [] => 0
  | v :: vs =>
    match method with
    | .sum => (v :: vs).foldl (· + ·) 0
    | .average => (v :: vs).foldl (· + ·) 0 / ((v :: vs).length : ℚ)
    | .min => vs.foldl Min.min v
    | .max => vs.foldl Max.max v

/-- Calendar components `(year, month, day, hour, minute)` that
`new Date(datetime)` exposes through its getters, with the environment
timezone fixed to UTC, for an ISO-shaped `datetime` string; `none` models an
Invalid Date (all getters `NaN`). -/
def isoParts (datetime : String) : Option (Nat × Nat × Nat × Nat × Nat) :=
  match datetime.toList with
  | y1 :: y2 :: y3 :: y4 :: '-' :: mo1 :: mo2 :: '-' :: d1 :: d2 :: 'T' ::
      h1 :: h2 :: ':' :: mi1 :: mi2 :: _ =>
    if ([y1, y2, y3, y4, mo1, mo2, d1, d2, h1, h2, mi1, mi2].all Char.isDigit) then
      some (digitsVal [y1, y2, y3, y4], digitsVal [mo1, mo2],
        digitsVal [d1, d2], digitsVal [h1, h2], digitsVal [mi1, mi2])
    else none
  | _ => none

/-- `String(n).padStart(2, '0')` for a number getter. -/
def pad2 (n : Nat) : String :=
  if n < 10 then "0" ++ toString n else toString n

/-- The bucket key of `groupByTimeInterval` for one record's `datetime`. An
Invalid Date renders every getter as the 3-character string `NaN`, which
`padStart(2, '0')` leaves unchanged. -/
def bucketKey (interval : Interval) (datetime : String) : String :=
  match isoParts datetime with
  | some (y, mo, d, h, mi) =>
    match interval with
    | .minute =>
      toString y ++ "-" ++ pad2 mo ++ "-" ++ pad2 d ++ " " ++ pad2 h ++ ":" ++
        pad2 mi
    | .hour => toString y ++ "-" ++ pad2 mo ++ "-" ++ pad2 d ++ " " ++ pad2 h ++ ":00"
    | .day => toString y ++ "-" ++ pad2 mo ++ "-" ++ pad2 d
    | .month => toString y ++ "-" ++ pad2 mo
  | none =>
    match interval with
    | .minute => "NaN-NaN-NaN NaN:NaN"
    | .hour => "NaN-NaN-NaN NaN:00"
    | .day => "NaN-NaN-NaN"
    | .month => "NaN-NaN"

/-- `groupByTimeInterval(records, interval)`: skip records without a truthy
combined instant, bucket the rest under their truncated key, JS object
insertion order. -/
def groupByTimeInterval (records : List InverterRecord) (interval : Interval) :
    List (String × List InverterRecord) :=
  records.foldl (fun groups r =>
    match r.userRecord.timestamp.datetime with
    | none => groups
    | some dt =>
      if dt = "" then groups
      else upsertAppend groups (bucketKey interval dt) r) []

/-- The default field list of `aggregateData` when `options.fields` is
omitted. The source annotates these with `as keyof` type assertions naming
`pv`, `battery`, `battery`, `inverter`, `grid`, but the runtime values are
exactly these five strings. -/
def defaultFields : List String := ["powerW", "voltage", "soc", "voltage", "voltage"]

/-- JS object assignment `values[field] = x`: overwrite in place or append. -/
def setValue (values : List (String × ℚ)) (key : String) (x : ℚ) :
    List (String × ℚ) :=
  match values with
  | [] => [(key, x)]
  | (k, v) :: rest =>
    if k = key then (k, x) :: rest else (k, v) :: setValue rest key x

/-- `aggregateData(records, options)`: empty input yields the empty list;
otherwise every time bucket becomes one `AggregatedData` whose `values`
object is filled by reducing each requested (or default) field over the
bucket's records. -/
def aggregateData (records : List InverterRecord)
    (options : AggregationOptions) : List AggregatedData :=
  if records.length = 0 then []
  else
    (groupByTimeInterval records options.interval).map (fun p =>
      let fieldsToAggregate := options.fields.getD defaultFields
      let values := fieldsToAggregate.foldl (fun vs field =>
        setValue vs field
          (calculateAggregation (extractFieldValues p.2 field) options.method)) []
      ⟨p.1, values, p.2.length⟩)

/-- The numeric leaf fields of an `InverterRecord`, used to state claims that
quantify over "a given field" of the record. -/
inductive Field where
  | invSupplyTotalKWh
  | pvVoltage
  | pvCurrent
  | pvPowerW
  | pvDailyWh
  | pvMonthlyWd
  | pvYearlyWm
  | pvTotalKWh
  | batteryVoltage
  | batteryCurrent
  | batteryTemperature
  | batterySOC
  | inverterVoltage
  | inverterCurrent
  | inverterFrequency
  | gridVoltage
  | gridCurrent
  | gridFrequency
deriving DecidableEq, Repr

/-- The dotted field path naming each numeric leaf field. -/
def Field.path : Field → String
  | .invSupplyTotalKWh => "inverterSupply.totalKWh"
  | .pvVoltage => "pv.voltage"
  | .pvCurrent => "pv.current"
  | .pvPowerW => "pv.powerW"
  | .pvDailyWh => "pv.dailyWh"
  | .pvMonthlyWd => "pv.monthlyWd"
  | .pvYearlyWm => "pv.yearlyWm"
  | .pvTotalKWh => "pv.totalKWh"
  | .batteryVoltage => "battery.voltage"
  | .batteryCurrent => "battery.current"
  | .batteryTemperature => "battery.temperature"
  | .batterySOC => "battery.soc"
  | .inverterVoltage => "inverter.voltage"
  | .inverterCurrent => "inverter.current"
  | .inverterFrequency => "inverter.frequency"
  | .gridVoltage => "grid.voltage"
  | .gridCurrent => "grid.current"
  | .gridFrequency => "grid.frequency"

/-- The raw value a record holds at each numeric leaf field, by direct
projection (independent of the dynamic path walk). -/
def Field.get : Field → InverterRecord → ℚ
  | .invSupplyTotalKWh, r => r.inverterSupply.totalKWh
  | .pvVoltage, r => r.pv.voltage
  | .pvCurrent, r => r.pv.current
  | .pvPowerW, r => r.pv.powerW
  | .pvDailyWh, r => r.pv.dailyWh
  | .pvMonthlyWd, r => r.pv.monthlyWd
  | .pvYearlyWm, r => r.pv.yearlyWm
  | .pvTotalKWh, r => r.pv.totalKWh
  | .batteryVoltage, r => r.battery.voltage
  | .batteryCurrent, r => r.battery.current
  | .batteryTemperature, r => r.battery.temperature
  | .batterySOC, r => r.battery.soc
  | .inverterVoltage, r => r.inverter.voltage
  | .inverterCurrent, r => r.inverter.current
  | .inverterFrequency, r => r.inverter.frequency
  | .gridVoltage, r => r.grid.voltage
  | .gridCurrent, r => r.grid.current
  | .gridFrequency, r => r.grid.frequency

/-! ## Theorems -/

/-- C10: for the empty record list, `aggregateData` returns the empty
sequence whatever aggregation options are supplied. -/
theorem aggregateData_empty_input (options : AggregationOptions) :
    aggregateData [] options = [] := rfl

/-- C4: the canonical-name header transform maps the legacy header
`"Total kWh"` to `InvSupply_TotalKWh` and never to `PV_TotalKWh`: the
source's second `case 'Total kWh':` is unreachable, so the repeated
`"Total kWh"` columns of the inverter-supply and PV sections collide on one
canonical field instead of resolving to two different ones. -/
theorem transformHeader_totalKWh_collision :
    transformHeader "Total kWh" = "InvSupply_TotalKWh" ∧
    transformHeader "Total kWh" ≠ "PV_TotalKWh" := by
  constructor <;> decide

/-- C2: for every input CSV text, the `ParseResult` of `parseCSV` satisfies
`successfulRows = |data|` and `successfulRows ≤ totalRows`. -/
theorem parseCSV_row_counts (content : String) :
    (parseCSV content).successfulRows = (parseCSV content).data.length ∧
    (parseCSV content).successfulRows ≤ (parseCSV content).totalRows := by
  refine ⟨rfl, ?_⟩
  simp only [parseCSV]
  exact le_trans (List.length_filterMap_le _ _)
    (le_of_eq (by rw [List.length_map, List.enum_length]))

/-- C3: `validateNumber` behaviour for any field name, row number and bounds
`min ≤ max`: value 0 with no error on `""` and `"-"`; value 0 with a
`conversion` error on non-numeric input; the parsed value itself (not
discarded, not clamped) with a `validation` error when outside `[min, max]`;
the parsed value with no error when within `[min, max]`. -/
theorem validateNumber_cases (f : String) (r : Nat) (mi ma : ℚ)
    (_hle : mi ≤ ma) :
    validateNumber "" f mi ma r = ⟨0, none⟩ ∧
    validateNumber "-" f mi ma r = ⟨0, none⟩ ∧
    (∀ v, v ≠ "" → v ≠ "-" → jsNumber v = none →
      (validateNumber v f mi ma r).value = 0 ∧
      (validateNumber v f mi ma r).error.map
        (fun e => (e.row, e.field, e.value, e.type)) =
        some (r, f, v, ErrorType.conversion)) ∧
    (∀ v q, v ≠ "" → v ≠ "-" → jsNumber v = some q →
      ((q < mi ∨ q > ma) →
        (validateNumber v f mi ma r).value = q ∧
        (validateNumber v f mi ma r).error.map
          (fun e => (e.row, e.field, e.value, e.type)) =
          some (r, f, v, ErrorType.validation)) ∧
      (mi ≤ q → q ≤ ma → validateNumber v f mi ma r = ⟨q, none⟩)) := by
  refine ⟨by simp [validateNumber], by simp [validateNumber], ?_, ?_⟩
  · intro v hv1 hv2 hjs
    simp [validateNumber, hv1, hv2, hjs]
  · intro v q hv1 hv2 hjs
    constructor
    · intro hout
      simp [validateNumber, hv1, hv2, hjs, if_pos hout]
    · intro hlo hhi
      have hnot : ¬ (q < mi ∨ q > ma) := by
        simp only [not_or, not_lt]
        exact ⟨hlo, hhi⟩
      simp [validateNumber, hv1, hv2, hjs, if_neg hnot]

/-- Witness for C3 at field `"f"`, row 1, bounds `[0, 100]`, and the inputs
`""`, `"-"`, `"abc"`, `"150"`, `"50"`. -/
theorem validateNumber_cases_witness :
    validateNumber "" "f" 0 100 1 = ⟨0, none⟩ ∧
    validateNumber "-" "f" 0 100 1 = ⟨0, none⟩ ∧
    ((validateNumber "abc" "f" 0 100 1).value = 0 ∧
      (validateNumber "abc" "f" 0 100 1).error.map
        (fun e => (e.row, e.field, e.value, e.type)) =
        some (1, "f", "abc", ErrorType.conversion)) ∧
    ((validateNumber "150" "f" 0 100 1).value = 150 ∧
      (validateNumber "150" "f" 0 100 1).error.map
        (fun e => (e.row, e.field, e.value, e.type)) =
        some (1, "f", "150", ErrorType.validation)) ∧
    validateNumber "50" "f" 0 100 1 = ⟨50, none⟩ := by
  have h := validateNumber_cases "f" 1 0 100 (by norm_num)
  exact ⟨h.1, h.2.1,
    h.2.2.1 "abc" (by decide) (by decide) (by decide),
    (h.2.2.2 "150" 150 (by decide) (by decide) (by decide)).1
      (by norm_num),
    (h.2.2.2 "50" 50 (by decide) (by decide) (by decide)).2
      (by norm_num) (by norm_num)⟩

/-! ### Helper lemmas about the validators -/

lemma validateDate_value (v f : String) (i : Nat) :
    (validateDate v f i).value = v := by
  unfold validateDate
  split_ifs with h1 h2 h3 <;> simp_all

lemma createTimestamp_date (d t : String) (i : Nat) :
    ((createTimestamp d t i).1).date = d := by
  unfold createTimestamp
  simp only [jsToISOString]
  split_ifs <;> simp [validateDate_value]

lemma validateNumber_error_field (v f : String) (mi ma : ℚ) (i : Nat) :
    ∀ e ∈ (validateNumber v f mi ma i).error.toList, e.field = f := by
  intro e he
  simp only [validateNumber] at he
  split_ifs at he with h1
  · simp at he
  · revert he
    cases hj : jsNumber v with
    | none => intro he; simp at he; simp [he]
    | some q =>
      intro he
      by_cases h2 : q < mi ∨ q > ma
      · simp [h2] at he
        simp [he]
      · simp [h2] at he

lemma validateNumber_error_field_ne (v f : String) (mi ma : ℚ) (i : Nat)
    (hf : f ≠ "record") :
    ∀ e ∈ (validateNumber v f mi ma i).error.toList, e.field ≠ "record" :=
  fun e he => by rw [validateNumber_error_field v f mi ma i e he]; exact hf

lemma validateDate_error_field (v f : String) (i : Nat) :
    ∀ e ∈ (validateDate v f i).error.toList, e.field = f := by
  intro e he
  unfold validateDate at he
  split_ifs at he <;> simp_all

lemma validateTime_error_field (v f : String) (i : Nat) :
    ∀ e ∈ (validateTime v f i).error.toList, e.field = f := by
  intro e he
  unfold validateTime at he
  split_ifs at he <;> simp_all

lemma validateBlackout_error_field (v f : String) (i : Nat) :
    ∀ e ∈ (validateBlackout v f i).error.toList, e.field = f := by
  intro e he
  simp only [validateBlackout] at he
  split_ifs at he <;> simp_all

lemma validateHex_error_field (v f : String) (i : Nat) :
    ∀ e ∈ (validateHex v f i).error.toList, e.field = f := by
  intro e he
  unfold validateHex at he
  split_ifs at he <;> simp_all

lemma createTimestamp_errors_field (d t : String) (i : Nat) :
    ∀ e ∈ (createTimestamp d t i).2,
      e.field = "Date" ∨ e.field = "Time" ∨ e.field = "datetime" := by
  intro e he
  unfold createTimestamp at he
  simp only [jsToISOString] at he
  split_ifs at he <;>
    (simp only [List.mem_append] at he
     rcases he with he | he
     · exact Or.inl (validateDate_error_field _ _ _ e he)
     · exact Or.inr (Or.inl (validateTime_error_field _ _ _ e he)))

/-- Accept branch of `parseRow`: when the id or the date is non-empty, a
record comes out, and its `status.hex` is the hex validator's value. -/
lemma parseRow_record_accept (row : RawRow) (i : Nat)
    (h : ¬ (row.get "ID" = "" ∧ row.get "Date" = "")) :
    ∃ rec, (parseRow row i).record = some rec ∧
      rec.status.hex = (validateHex (row.get "Hex") "Status_Hex" i).value := by
  unfold parseRow
  rw [if_neg (by rw [createTimestamp_date]; exact h)]
  exact ⟨_, rfl, rfl⟩

/-- Drop branch of `parseRow`: when both the id and the date are empty, no
record comes out and the error list is the field-level errors followed by the
one synthetic `record`/`incomplete` error. -/
lemma parseRow_drop_spec (row : RawRow) (i : Nat)
    (h : row.get "ID" = "" ∧ row.get "Date" = "") :
    (parseRow row i).record = none ∧
    ∃ fieldErrs,
      (parseRow row i).errors = fieldErrs ++
        [⟨i, "record", "incomplete",
          "Row missing required ID or date information", .validation⟩] ∧
      ∀ e ∈ fieldErrs, e.field ≠ "record" := by
  unfold parseRow
  rw [if_pos (by rw [createTimestamp_date]; exact h)]
  refine ⟨rfl, _, rfl, ?_⟩
  simp only [List.forall_mem_append]
  refine ⟨⟨⟨⟨⟨⟨⟨⟨⟨⟨⟨⟨⟨⟨⟨⟨⟨⟨⟨⟨?_, ?_⟩, ?_⟩, ?_⟩, ?_⟩, ?_⟩, ?_⟩, ?_⟩, ?_⟩,
    ?_⟩, ?_⟩, ?_⟩, ?_⟩, ?_⟩, ?_⟩, ?_⟩, ?_⟩, ?_⟩, ?_⟩, ?_⟩, ?_⟩
  · intro e he
    rcases createTimestamp_errors_field _ _ _ e he with h | h | h <;> simp [h]
  · intro e he
    rw [validateBlackout_error_field _ _ _ e he]; decide
  all_goals
    first
    | exact validateNumber_error_field_ne _ _ _ _ _ (by decide)
    | intro e he; rw [validateHex_error_field _ _ _ e he]; decide

/-- C1: `parseRow` yields a record exactly when the row's device id or its
resolved date is non-empty (the resolved date equals the raw `Date` cell,
see `createTimestamp_date`); when both are empty it yields no record and at
least one error. -/
theorem parseRow_acceptance (row : RawRow) (i : Nat) :
    ((row.get "ID" ≠ "" ∨ row.get "Date" ≠ "") →
      ((parseRow row i).record).isSome) ∧
    (row.get "ID" = "" ∧ row.get "Date" = "" →
      (parseRow row i).record = none ∧ (parseRow row i).errors ≠ []) := by
  constructor
  · intro h
    obtain ⟨rec, hr, -⟩ := parseRow_record_accept row i (by
      intro hc
      rcases h with h | h
      · exact h hc.1
      · exact h hc.2)
    rw [hr]
    rfl
  · intro h
    obtain ⟨hnone, fieldErrs, herrs, -⟩ := parseRow_drop_spec row i h
    refine ⟨hnone, ?_⟩
    rw [herrs]
    simp

/-- Witness for C1: a row with a device id produces a record; a row with
neither id nor date produces no record and at least one error. -/
theorem parseRow_acceptance_witness :
    ((parseRow [("ID", "DEV1"), ("Time", "10:05")] 2).record).isSome ∧
    ((parseRow [("Time", "10:05")] 2).record = none ∧
      (parseRow [("Time", "10:05")] 2).errors ≠ []) :=
  ⟨(parseRow_acceptance [("ID", "DEV1"), ("Time", "10:05")] 2).1
      (Or.inl (by decide)),
   (parseRow_acceptance [("Time", "10:05")] 2).2 ⟨by decide, by decide⟩⟩

/-- C8: when `parseRow` drops a row (id and date both empty), its error list
is the row's field-level errors (none of which is on field `record`) followed
by exactly one synthetic `validation` error with field `record` and raw value
`incomplete`. -/
theorem parseRow_drop_reports_incomplete (row : RawRow) (i : Nat)
    (h1 : row.get "ID" = "") (h2 : row.get "Date" = "") :
    ∃ fieldErrs,
      (parseRow row i).errors = fieldErrs ++
        [⟨i, "record", "incomplete",
          "Row missing required ID or date information", .validation⟩] ∧
      ∀ e ∈ fieldErrs, e.field ≠ "record" :=
  (parseRow_drop_spec row i ⟨h1, h2⟩).2

/-- Witness for C8 on a row with only a time cell. -/
theorem parseRow_drop_reports_incomplete_witness :
    ∃ fieldErrs,
      (parseRow [("Time", "10:05")] 2).errors = fieldErrs ++
        [⟨2, "record", "incomplete",
          "Row missing required ID or date information", .validation⟩] ∧
      ∀ e ∈ fieldErrs, e.field ≠ "record" :=
  parseRow_drop_reports_incomplete [("Time", "10:05")] 2 (by decide) (by decide)

/-- C9: a non-empty string that fails the `0x` hex pattern is returned by
`validateHex` unchanged as the value (not the `"0x00"` default) alongside a
`format` error, and `parseRow` stores it verbatim as the assembled record's
`status.hex`. -/
theorem validateHex_invalid_propagates (v f : String) (i : Nat) (row : RawRow) :
    (v ≠ "" → hexShapeOK v = false →
      validateHex v f i = ⟨v, some ⟨i, f, v,
        "Invalid hex format: \x22" ++ v ++ "\x22", .format⟩⟩) ∧
    (row.get "Hex" ≠ "" → hexShapeOK (row.get "Hex") = false →
      ∀ rec, (parseRow row i).record = some rec →
        rec.status.hex = row.get "Hex") := by
  have hhex : ∀ w g, w ≠ "" → hexShapeOK w = false →
      validateHex w g i = ⟨w, some ⟨i, g, w,
        "Invalid hex format: \x22" ++ w ++ "\x22", .format⟩⟩ := by
    intro w g hw hshape
    unfold validateHex
    rw [if_neg hw, if_pos (by simp [hshape])]
  refine ⟨hhex v f, ?_⟩
  intro hne hshape rec hrec
  by_cases hdrop : row.get "ID" = "" ∧ row.get "Date" = ""
  · rw [(parseRow_drop_spec row i hdrop).1] at hrec
    cases hrec
  · obtain ⟨rec2, h1, h2⟩ := parseRow_record_accept row i hdrop
    rw [h1] at hrec
    injection hrec with hrec
    rw [← hrec, h2, hhex _ _ hne hshape]

/-- Witness for C9 on the raw hex text `"03"` in a row with a device id. -/
theorem validateHex_invalid_propagates_witness :
    (validateHex "03" "Status_Hex" 2 = ⟨"03", some ⟨2, "Status_Hex", "03",
      "Invalid hex format: \x2203\x22", .format⟩⟩) ∧
    ∀ rec, (parseRow [("ID", "DEV1"), ("Hex", "03")] 2).record = some rec →
      rec.status.hex = "03" := by
  have h := validateHex_invalid_propagates "03" "Status_Hex" 2
    [("ID", "DEV1"), ("Hex", "03")]
  exact ⟨h.1 (by decide) (by decide),
    fun rec hrec => h.2 (by decide) (by decide) rec hrec⟩

/-! ### Aggregation lemmas -/

lemma extractFieldValue_path (f : Field) (r : InverterRecord) :
    extractFieldValue r f.path = f.get r := by
  cases f <;> rfl

lemma calculateAggregation_single_sum (v : ℚ) :
    calculateAggregation [v] .sum = v := by
  simp [calculateAggregation]

lemma calculateAggregation_single_average (v : ℚ) :
    calculateAggregation [v] .average = v := by
  simp [calculateAggregation]

lemma groupByTimeInterval_single (r : InverterRecord) (iv : Interval)
    (dt : String) (hdt : r.userRecord.timestamp.datetime = some dt)
    (hne : dt ≠ "") :
    groupByTimeInterval [r] iv = [(bucketKey iv dt, [r])] := by
  unfold groupByTimeInterval
  rw [List.foldl_cons, List.foldl_nil, hdt]
  simp [hne, upsertAppend]

/-- The record used to exhibit the default-field collapse of `aggregateData`:
its battery, inverter and grid voltages are pairwise distinct. -/
def collideRecord : InverterRecord :=
  ⟨⟨"DEV1", "", ⟨"2025-09-28", "10:05", some "2025-09-28T10:05:00.000Z"⟩, none⟩,
   ⟨7⟩, ⟨310, 9, 500, 4, 5, 6, 3⟩, ⟨25, 8, 30, 80⟩, ⟨230, 11, 60⟩,
   ⟨231, 13, 50⟩, ⟨"0x00"⟩⟩

/-- C5: with `fields` omitted, `aggregateData` does not produce the five
distinct default fields: the runtime default list is the strings
`powerW, voltage, soc, voltage, voltage`, so the bucket's `values` has
exactly three keys, the three `voltage` entries all resolve to the battery
voltage, and the inverter and grid voltages (230 and 231 here, both distinct
from the battery's 25) appear nowhere. -/
theorem aggregateData_default_fields_collapse :
    aggregateData [collideRecord] ⟨.day, none, .min⟩ =
      [⟨"2025-09-28", [("powerW", 500), ("voltage", 25), ("soc", 80)], 1⟩] ∧
    collideRecord.battery.voltage = 25 ∧
    collideRecord.inverter.voltage = 230 ∧
    collideRecord.grid.voltage = 231 := by
  refine ⟨?_, rfl, rfl, rfl⟩
  decide

/-- C6: aggregating a single record that carries a combined datetime instant,
over any interval, with method `sum` or `average`, for any numeric leaf
field, yields exactly one bucket whose value for that field is the record's
raw field value and whose count is 1. -/
theorem aggregateData_single_record (r : InverterRecord) (iv : Interval)
    (m : Method) (f : Field) (dt : String)
    (hm : m = .sum ∨ m = .average)
    (hdt : r.userRecord.timestamp.datetime = some dt) (hne : dt ≠ "") :
    aggregateData [r] ⟨iv, some [f.path], m⟩ =
      [⟨bucketKey iv dt, [(f.path, f.get r)], 1⟩] := by
  unfold aggregateData
  rw [if_neg (by simp)]
  rw [groupByTimeInterval_single r iv dt hdt hne]
  rcases hm with hm | hm <;> subst hm <;>
    simp [extractFieldValues, setValue, extractFieldValue_path,
      calculateAggregation_single_sum, calculateAggregation_single_average]

/-- The record used as the concrete C6 witness. -/
def sampleRecord : InverterRecord :=
  ⟨⟨"DEV2", "", ⟨"2025-09-28", "10:05", some "2025-09-28T10:05:00.000Z"⟩, none⟩,
   ⟨7⟩, ⟨1, 2, 500, 4, 5, 6, 3⟩, ⟨25, 8, 30, 80⟩, ⟨230, 11, 60⟩,
   ⟨231, 13, 50⟩, ⟨"0x00"⟩⟩

/-- Witness for C6: one record, minute interval, method `sum`, field
`pv.powerW`. -/
theorem aggregateData_single_record_witness :
    aggregateData [sampleRecord] ⟨.minute, some ["pv.powerW"], .sum⟩ =
      [⟨"2025-09-28 10:05", [("pv.powerW", 500)], 1⟩] := by
  rw [show ("pv.powerW" : String) = Field.pvPowerW.path from rfl]
  rw [aggregateData_single_record sampleRecord .minute .sum Field.pvPowerW
    "2025-09-28T10:05:00.000Z" (Or.inl rfl) rfl (by decide)]
  decide

/-! ### Error-formatter lemmas -/

/-- One formatted example line of the Error Formatter. -/
def exampleLine (e : ParseError) : String :=
  "  Row " ++ toString e.row ++ ", " ++ e.field ++ ": " ++ e.message ++ "\x0a"

lemma strFoldlAppend (l : List String) : ∀ (s : String),
    l.foldl (· ++ ·) s = s ++ String.join l := by
  induction l with
  | nil => intro s; simp [String.join]
  | cons a l ih =>
    intro s
    show l.foldl (· ++ ·) (s ++ a) = s ++ String.join (a :: l)
    have hj : String.join (a :: l) = a ++ String.join l := by
      show l.foldl (· ++ ·) ("" ++ a) = _
      rw [ih]
      simp
    rw [ih, hj, String.append_assoc]

lemma strJoin_cons (a : String) (l : List String) :
    String.join (a :: l) = a ++ String.join l := by
  show l.foldl (· ++ ·) ("" ++ a) = _
  rw [strFoldlAppend]
  simp

lemma exampleLines_foldl (l : List ParseError) : ∀ (s : String),
    l.foldl (fun m e =>
        m ++ "  Row " ++ toString e.row ++ ", " ++ e.field ++ ": " ++
          e.message ++ "\x0a") s =
      s ++ String.join (l.map exampleLine) := by
  induction l with
  | nil => intro s; simp [String.join]
  | cons e rest ih =>
    intro s
    rw [List.foldl_cons, ih, List.map_cons, strJoin_cons]
    simp [exampleLine, String.append_assoc]

lemma foldl_upsert_same_key (t : ErrorType) :
    ∀ (es : List ParseError) (acc : List ParseError),
      (∀ e ∈ es, e.type = t) →
      es.foldl (fun acc2 e => upsertAppend acc2 e.type.key e) [(t.key, acc)] =
        [(t.key, acc ++ es)] := by
  intro es
  induction es with
  | nil => intro acc h; simp
  | cons e rest ih =>
    intro acc h
    have he : e.type = t := h e (by simp)
    rw [List.foldl_cons]
    have hstep : upsertAppend [(t.key, acc)] e.type.key e =
        [(t.key, acc ++ [e])] := by
      rw [he]
      simp [upsertAppend]
    rw [hstep, ih (acc ++ [e]) (fun x hx => h x (by simp [hx]))]
    simp

lemma groupByType_const (t : ErrorType) (e : ParseError) (es : List ParseError)
    (h : ∀ x ∈ e :: es, x.type = t) :
    groupByType (e :: es) = [(t.key, e :: es)] := by
  unfold groupByType
  rw [List.foldl_cons]
  have he : e.type = t := h e (by simp)
  have hstep : upsertAppend [] e.type.key e = [(t.key, [e])] := by
    rw [he]
    simp [upsertAppend]
  rw [hstep, foldl_upsert_same_key t es [e] (fun x hx => h x (by simp [hx]))]
  simp

/-- C7: formatting the empty error list returns exactly `"No errors"`;
formatting 7 errors of one type yields the total-count header, one section
for that type, the first 5 example lines, and the `... and 2 more` suffix. -/
theorem formatParseErrors_spec :
    formatParseErrors [] = "No errors" ∧
    ∀ (t : ErrorType) (es : List ParseError), es.length = 7 →
      (∀ e ∈ es, e.type = t) →
      formatParseErrors es =
        "Found " ++ toString (7 : Nat) ++ " error(s):\x0a" ++
        ("\x0a" ++ jsToUpper t.key ++ " errors (" ++ toString (7 : Nat) ++
          "):\x0a" ++
        String.join ((es.take 5).map exampleLine) ++
        ("  ... and " ++ toString (2 : Nat) ++ " more\x0a")) := by
  constructor
  · rfl
  · intro t es hlen htype
    cases es with
    | nil => simp at hlen
    | cons e rest =>
      unfold formatParseErrors
      rw [if_neg (by rw [hlen]; decide)]
      rw [groupByType_const t e rest htype]
      rw [List.foldl_cons, List.foldl_nil]
      unfold typeSection
      rw [exampleLines_foldl, hlen]
      rw [if_pos (by decide)]
      simp [String.append_assoc]

/-- A list of 7 errors, all of type `format`, for the C7 witness. -/
def sevenErrors : List ParseError :=
  [⟨2, "f", "v", "bad", .format⟩, ⟨3, "f", "v", "bad", .format⟩,
   ⟨4, "f", "v", "bad", .format⟩, ⟨5, "f", "v", "bad", .format⟩,
   ⟨6, "f", "v", "bad", .format⟩, ⟨7, "f", "v", "bad", .format⟩,
   ⟨8, "f", "v", "bad", .format⟩]

/-- Witness for C7 on `sevenErrors`: the fully rendered string shows the 5
example lines and the `... and 2 more` suffix. -/
theorem formatParseErrors_spec_witness :
    formatParseErrors [] = "No errors" ∧
    formatParseErrors sevenErrors =
      "Found 7 error(s):\x0a\x0aFORMAT errors (7):\x0a  Row 2, f: bad\x0a  Row 3, f: bad\x0a  Row 4, f: bad\x0a  Row 5, f: bad\x0a  Row 6, f: bad\x0a  ... and 2 more\x0a" := by
  refine ⟨formatParseErrors_spec.1, ?_⟩
  rw [formatParseErrors_spec.2 ErrorType.format sevenErrors (by decide)
    (by decide)]
  decide

end CarryGreen
